import Mathlib

/-!
Verification development for `tools/esp32_udp_logger_cli.py` of the
esp32-udp-logger repository.

The Python CLI is shallowly embedded: each Python function becomes a Lean
function, socket effects are passed in explicitly as an environment record
describing what the OS would do (which calls raise `OSError`, what datagram
arrives), interactive input becomes an explicit list of the lines the user
types, and process termination is an explicit `Outcome` value:
`Outcome.ok` for a normal return, `Outcome.exitMsg` for `SystemExit(msg)`
(which CPython turns into a non-zero exit status with `msg` printed), and
`Outcome.exc` for an exception that propagates unhandled out of the function
(a traceback, not a user-facing message).
-/

namespace UdpLoggerCli

/-- How the embedding reports the fate of a Python call: a normal return,
a `raise SystemExit(msg)` (user-facing, non-zero exit status), an unhandled
exception carrying the OS error text, or blocking forever awaiting more
interactive input than was supplied. -/
inductive Outcome (α : Type) where
  | ok : α → Outcome α
  | exitMsg : String → Outcome α
  | exc : String → Outcome α
  | waiting : Outcome α
deriving DecidableEq, Repr

/-- Python's `str.lower()`, for the ASCII instance names this tool deals
with: every character lowercased. Written as a structural map over the
character list so that it evaluates by kernel reduction. -/
def strLower (s : String) : String := ⟨s.data.map Char.toLower⟩

/-- `DEFAULT_RX_PORT = 9998` from the source. -/
def DEFAULT_RX_PORT : Int := 9998

/-- `DEFAULT_TX_PORT = 9999` from the source. -/
def DEFAULT_TX_PORT : Int := 9999

/-- The `Device` dataclass: `name`, `host`, `ip`, `port`. Python ints are
modelled as `Int`. -/
structure Device where
  name : String
  host : String
  ip : String
  port : Int
deriving DecidableEq, Repr

/-- The fields of a zeroconf `ServiceInfo` that `_info_to_device` reads:
`info.port` (possibly `None` or `0`, both falsy), `info.parsed_addresses()`
(a list of address literals; IPv6 ones contain a colon), and `info.server`
(possibly `None`, modelled by `Option`). -/
structure ServiceInfo where
  port : Option Int
  parsed_addresses : List String
  server : Option String
deriving DecidableEq, Repr

/-- The separator `"._esp32udplog._udp.local."` that `_info_to_device`
splits the fully qualified name on. -/
def serviceSuffix : String := "._esp32udplog._udp.local."

/-- Embedding of `_info_to_device(info, fqdn)`:
`instance = fqdn.split("._esp32udplog._udp.local.")[0]`;
`port = int(info.port) if info.port else DEFAULT_RX_PORT` (Python truthiness:
`None` and `0` both fall back); the first parsed address without a `:` is
taken as the IPv4 address; `host = (info.server or "").rstrip(".")`; a
device lacking an IPv4 address is dropped (`if not ip: return None`). -/
def info_to_device (info : Option ServiceInfo) (fqdn : String) : Option Device :=
  match info with
  | none => none
  | some i =>
    let inst := (fqdn.splitOn serviceSuffix).headD fqdn
    let port : Int := match i.port with
      | some p => if p = 0 then DEFAULT_RX_PORT else p
      | none => DEFAULT_RX_PORT
    let ip : String := (i.parsed_addresses.find? (fun a => !(a.contains ':'))).getD ""
    let host := (i.server.getD "").dropRightWhile (· == '.')
    if ip = "" then none
    else some ⟨inst, if host = "" then inst ++ ".local" else host, ip, port⟩

/-- One zeroconf browsing event, as seen by `_Listener.add_service` /
`update_service`: the service's fully qualified name together with the
(possibly `None`) `ServiceInfo` that `zc.get_service_info` resolved for it. -/
def DiscoveryEvent : Type := String × Option ServiceInfo

/-- `self.devices[dev.name] = dev` on a Python `dict`: if a device of that
name is already present its entry is overwritten in place, otherwise the
device is appended (insertion order preserved). -/
def storeDevice (m : List Device) (d : Device) : List Device :=
  if m.any (fun x => x.name = d.name) then
    m.map (fun x => if x.name = d.name then d else x)
  else
    m ++ [d]

/-- `_Listener.add_service` (and `update_service`, which just calls it) for
one event: if the resolved `ServiceInfo` converts to a device it is stored,
otherwise the event is ignored. `remove_service` is a no-op in the source,
so removals do not appear among the events. -/
def storeEvent (m : List Device) (ev : DiscoveryEvent) : List Device :=
  match info_to_device ev.2 ev.1 with
  | some d => storeDevice m d
  | none => m

/-- The listener state after processing the given events in order. -/
def collectDevices (events : List DiscoveryEvent) : List Device :=
  events.foldl storeEvent []

/-- The Boolean comparison `discover` sorts with:
`devices.sort(key=lambda d: d.name.lower())`. -/
def byLowerName (a b : Device) : Bool :=
  decide (strLower a.name ≤ strLower b.name)

/-- Embedding of `discover(timeout_s)`: the devices collected from the
browsing events seen during the timeout window, as a list sorted by
case-insensitive name. -/
def discover (events : List DiscoveryEvent) : List Device :=
  (collectDevices events).mergeSort byLowerName

/-- The `input()` loop of `pick_device`: each supplied line is stripped;
if it `isdigit()` and its value `n` satisfies `1 <= n <= len(devices)`,
`devices[n - 1]` is returned, otherwise the loop re-prompts. If the
supplied lines run out the loop blocks on `input()`. -/
def pick_loop (devices : List Device) : List String → Outcome Device
  | [] => Outcome.waiting
  | sel :: rest =>
    match (sel.trim).toNat? with
    | some n =>
      if h : 1 ≤ n ∧ n ≤ devices.length then
        Outcome.ok (devices.get ⟨n - 1, by omega⟩)
      else
        pick_loop devices rest
    | none => pick_loop devices rest

/-- Embedding of `pick_device(devices)`: an empty list raises
`SystemExit("No devices found. ...")`; otherwise the numbered menu is shown
and the selection loop runs on the user's input lines. -/
def pick_device (devices : List Device) (selections : List String) : Outcome Device :=
  if devices.isEmpty then
    Outcome.exitMsg
      "No devices found. (mDNS blocked? component not advertising _esp32udplog._udp?)"
  else
    pick_loop devices selections

/-- Embedding of the inner `resolve(name)` of `main`: the literal name
`"pick"` goes to `pick_device`; otherwise the first device with exactly
matching name, then the first with case-insensitively matching name, and
finally `SystemExit(f"Device not found: {name}. Run: {sys.argv[0]} list")`.
`argv0` stands for `sys.argv[0]`. -/
def resolve (devices : List Device) (selections : List String)
    (argv0 : String) (name : String) : Outcome Device :=
  if name = "pick" then pick_device devices selections
  else
    match devices.find? (fun d => d.name = name) with
    | some d => Outcome.ok d
    | none =>
      match devices.find? (fun d => strLower d.name = strLower name) with
      | some d => Outcome.ok d
      | none => Outcome.exitMsg s!"Device not found: {name}. Run: {argv0} list"

/-- What the operating system does during one `send_udp_cmd` call:
`bindErr` is the `OSError` text raised by `s.bind(("", 0))` (if any),
`sendErr` the `OSError` text raised by `s.sendto` (if any), and `reply`
the decoded text of the reply datagram, `none` meaning `socket.timeout`. -/
structure SendEnv where
  bindErr : Option String
  sendErr : Option String
  reply : Option String
deriving DecidableEq, Repr

/-- Embedding of `send_udp_cmd(ip, port, cmd, expect_reply)`. Faithful to
the source structure: `s.bind(("", 0))` happens BEFORE the `try` block, so
an `OSError` there propagates unhandled (`Outcome.exc`); an `OSError` from
`s.sendto` inside the `try` is turned into
`SystemExit(f"Network error sending command to {ip}:{port}: {e}")`;
with `expect_reply=False` the function returns `""` without waiting; a
reply datagram is decoded and returned; `socket.timeout` returns `""`. -/
def send_udp_cmd (env : SendEnv) (ip : String) (port : Int) (cmd : String)
    (expect_reply : Bool := true) : Outcome String :=
  match env.bindErr with
  | some e => Outcome.exc e
  | none =>
    match env.sendErr with
    | some e => Outcome.exitMsg s!"Network error sending command to {ip}:{port}: {e}"
    | none =>
      if !expect_reply then Outcome.ok ""
      else
        match env.reply with
        | some data => Outcome.ok data
        | none => Outcome.ok ""

/-- What the operating system does during `listen_logs`: the `OSError`
text raised by `s.bind(("", port))` (if any), and the datagrams that then
arrive, already lossily decoded to text. -/
structure ListenEnv where
  bindErr : Option String
  packets : List String
deriving DecidableEq, Repr

/-- Embedding of `listen_logs(port)`. Faithful to the source structure:
`s.bind(("", port))` is not wrapped in any `try`, so an `OSError` there
propagates unhandled (`Outcome.exc`). Otherwise each received datagram is
printed, with a newline appended when the text does not already end in one;
the loop never returns, so on a finite packet list we expose the lines
written so far. -/
def listen_logs (env : ListenEnv) (port : Int) : Outcome (List String) :=
  match env.bindErr with
  | some e => Outcome.exc e
  | none =>
    Outcome.ok (env.packets.map (fun txt => if txt.endsWith "\n" then txt else txt ++ "\n"))

/-- Python's `x or fallback` on strings: the fallback when `x` is empty. -/
def orElseStr (x fallback : String) : String :=
  if x = "" then fallback else x

/-- `print(send_udp_cmd(...) or "(no reply)")` — the text the `status`
branch of `main` prints for reply `r`. -/
def status_print (r : String) : String := orElseStr r "(no reply)"

/-- `print(r or "OK (no reply)")` — the text the `bind` / `unbind` /
`broadcast-*` branches of `main` print for reply `r`. -/
def ok_print (r : String) : String := orElseStr r "OK (no reply)"

/-- `pc_ip = args.pc_ip.strip() or get_local_ip_for_target(d.ip)` in the
`bind` branch of `main`: the stripped `--pc-ip` argument when non-empty,
else the auto-detected local IP. -/
def bind_pc_ip (pc_ip_arg local_ip : String) : String :=
  orElseStr pc_ip_arg.trim local_ip

/-- The payload `f"bind {pc_ip} {tx_port}"` built by both the `bind`
subcommand and the pick menu's bind action. -/
def bind_payload (pc_ip : String) (tx_port : Int) : String :=
  s!"bind {pc_ip} {tx_port}"

/-- The UDP payload the `bind` subcommand sends, given the `--pc-ip`
argument, the auto-detected local IP and the `--tx-port` value. -/
def main_bind_payload (pc_ip_arg local_ip : String) (tx_port : Int) : String :=
  bind_payload (bind_pc_ip pc_ip_arg local_ip) tx_port

/-- The UDP payload the pick menu's "bind to me" action sends: it always
uses the auto-detected local IP (`get_local_ip_for_target`). -/
def pick_bind_payload (local_ip : String) (tx_port : Int) : String :=
  bind_payload local_ip tx_port

theorem toString_string (s : String) : toString s = s := rfl

/-- Claim C1: every bind invocation — the `bind` subcommand and the pick
menu's bind action — sends exactly the string `"bind "` followed by the
chosen IPv4 address (the stripped `--pc-ip` argument when supplied and
non-empty, otherwise the auto-detected local IP), one space, and the
tx-port number, with single space separators and nothing after the port. -/
theorem bind_payload_exact (pc_ip_arg local_ip : String) (tx_port : Int) :
    (main_bind_payload pc_ip_arg local_ip tx_port
        = "bind " ++ bind_pc_ip pc_ip_arg local_ip ++ " " ++ toString tx_port
      ∧ (bind_pc_ip pc_ip_arg local_ip = pc_ip_arg.trim
          ∨ bind_pc_ip pc_ip_arg local_ip = local_ip))
    ∧ pick_bind_payload local_ip tx_port
        = "bind " ++ local_ip ++ " " ++ toString tx_port := by
  refine ⟨⟨?_, ?_⟩, ?_⟩
  · simp [main_bind_payload, bind_payload, toString_string, String.append_assoc,
      String.append_empty]
  · unfold bind_pc_ip orElseStr
    split <;> simp
  · simp [pick_bind_payload, bind_payload, toString_string, String.append_assoc,
      String.append_empty]

/-- Claim C3 (code bug): when `s.bind(("", 0))` in `send_udp_cmd` raises an
`OSError`, the error propagates unhandled out of the function — the `try`
block only begins after the bind — so the process dies with a traceback and
no message containing "Failed to bind", contradicting the repository's own
test `test_send_udp_cmd_bind_error_is_actionable`, which expects
`SystemExit` with "Failed to bind local UDP socket". Evaluated here at the
test's own input. -/
theorem send_bind_oserror_unhandled :
    send_udp_cmd ⟨some "permission denied", none, none⟩ "10.0.0.1" 1234 "status" true
      = Outcome.exc "permission denied" := rfl

/-- Claim C4 (code bug): when `s.bind(("", port))` in `listen_logs` raises
an `OSError`, the error propagates unhandled — there is no `try` around the
bind — so the process dies with a traceback and no message containing the
attempted port, contradicting the repository's own test
`test_listen_logs_bind_error_is_actionable`, which expects `SystemExit`
with "Failed to bind UDP listener on port 9000". Evaluated at the test's
own input. -/
theorem listen_bind_oserror_unhandled :
    listen_logs ⟨some "address in use", []⟩ 9000 = Outcome.exc "address in use" := rfl

/-- Claim C5: an `OSError` from `s.sendto` always terminates the process
with the single user-facing message
`"Network error sending command to <ip>:<port>: <error text>"`, which
contains the target IP address, the target port, and the underlying system
error text, whatever the command, the reply expectation and the reply. -/
theorem send_error_message_spec (ip : String) (port : Int) (cmd : String)
    (expect_reply : Bool) (e : String) (reply : Option String) :
    send_udp_cmd ⟨none, some e, reply⟩ ip port cmd expect_reply
      = Outcome.exitMsg
          ("Network error sending command to " ++ ip ++ ":" ++ toString port ++ ": " ++ e) := by
  simp [send_udp_cmd, toString_string, String.append_assoc, String.append_empty]

/-- Claim C8: a reply timeout is not a failure: with the socket operations
succeeding and no reply datagram arriving within the timeout,
`send_udp_cmd` returns normally with `""`, and the callers then print the
"no reply" variant (`"(no reply)"` for `status`, `"OK (no reply)"` for the
commands that expect an `OK`) instead of terminating with an error. -/
theorem reply_timeout_not_fatal (ip : String) (port : Int) (cmd : String) :
    send_udp_cmd ⟨none, none, none⟩ ip port cmd true = Outcome.ok ""
    ∧ status_print "" = "(no reply)"
    ∧ ok_print "" = "OK (no reply)" := by
  refine ⟨rfl, rfl, rfl⟩

/-- Claim C10: a zero-length reply datagram decodes to `""`, so
`send_udp_cmd` returns exactly the same value for an empty-datagram reply,
for a reply timeout, and for `expect_reply=False` with any reply — callers
cannot tell an empty answer from no answer, and both print the
"(no reply)" variant. -/
theorem empty_reply_indistinguishable (ip : String) (port : Int) (cmd : String)
    (r : Option String) :
    send_udp_cmd ⟨none, none, some ""⟩ ip port cmd true = Outcome.ok ""
    ∧ send_udp_cmd ⟨none, none, some ""⟩ ip port cmd true
        = send_udp_cmd ⟨none, none, none⟩ ip port cmd true
    ∧ send_udp_cmd ⟨none, none, r⟩ ip port cmd false = Outcome.ok ""
    ∧ status_print "" = "(no reply)"
    ∧ ok_print "" = "OK (no reply)" := by
  refine ⟨rfl, rfl, ?_, rfl, rfl⟩
  simp [send_udp_cmd]

/-- Claim C2: for a device-name argument other than the literal `"pick"`,
resolution returns a device whose name equals the argument exactly when one
exists; otherwise a device whose name matches case-insensitively when one
exists; and otherwise terminates the process with the user-facing message
`"Device not found: <name>. Run: <argv0> list"`, which names the `list`
command as the remedy. (The literal `"pick"` triggering interactive
selection is claim C9's theorem.) -/
theorem resolve_matching_spec (devices : List Device) (selections : List String)
    (argv0 name : String) (h : name ≠ "pick") :
    ((∃ d ∈ devices, d.name = name) →
        ∃ d, resolve devices selections argv0 name = Outcome.ok d
          ∧ d ∈ devices ∧ d.name = name)
    ∧ ((∀ d ∈ devices, d.name ≠ name) →
        (∃ d ∈ devices, strLower d.name = strLower name) →
        ∃ d, resolve devices selections argv0 name = Outcome.ok d
          ∧ d ∈ devices ∧ strLower d.name = strLower name)
    ∧ ((∀ d ∈ devices, strLower d.name ≠ strLower name) →
        resolve devices selections argv0 name
          = Outcome.exitMsg ("Device not found: " ++ name ++ ". Run: " ++ argv0 ++ " list")) := by
  refine ⟨?_, ?_, ?_⟩
  · rintro ⟨d, hd, hname⟩
    rcases hfind : devices.find? (fun d => d.name = name) with _ | d'
    · exact absurd (by simpa using List.find?_eq_none.mp hfind d hd) (by simp [hname])
    · exact ⟨d', by simp [resolve, h, hfind], List.mem_of_find?_eq_some hfind,
        by simpa using List.find?_some hfind⟩
  · intro hno hex
    have hfind1 : devices.find? (fun d => d.name = name) = none :=
      List.find?_eq_none.mpr (by simpa using hno)
    rcases hex with ⟨d, hd, hname⟩
    rcases hfind : devices.find? (fun d => strLower d.name = strLower name) with _ | d'
    · exact absurd (by simpa using List.find?_eq_none.mp hfind d hd) (by simp [hname])
    · exact ⟨d', by simp [resolve, h, hfind1, hfind], List.mem_of_find?_eq_some hfind,
        by simpa using List.find?_some hfind⟩
  · intro hno
    have hfind2 : devices.find? (fun d => strLower d.name = strLower name) = none :=
      List.find?_eq_none.mpr (by simpa using hno)
    have hfind1 : devices.find? (fun d => d.name = name) = none := by
      refine List.find?_eq_none.mpr ?_
      intro d hd
      simp only [decide_eq_true_eq]
      intro hEq
      exact hno d hd (by rw [hEq])
    simp [resolve, h, hfind1, hfind2, toString_string, String.append_assoc]

/-- Witness for `resolve_matching_spec`, exercising the case-insensitive
fallback on a concrete one-device list. -/
theorem resolve_matching_spec_witness :
    ("logger-1" : String) ≠ "pick"
    ∧ (∀ d ∈ [(⟨"Logger-1", "h", "10.0.0.5", 9998⟩ : Device)], d.name ≠ "logger-1")
    ∧ ∃ d, resolve [(⟨"Logger-1", "h", "10.0.0.5", 9998⟩ : Device)] [] "cli" "logger-1"
          = Outcome.ok d
        ∧ d ∈ [(⟨"Logger-1", "h", "10.0.0.5", 9998⟩ : Device)]
        ∧ strLower d.name = strLower "logger-1" := by
  refine ⟨by decide, by decide, ?_⟩
  exact (resolve_matching_spec [(⟨"Logger-1", "h", "10.0.0.5", 9998⟩ : Device)] [] "cli"
    "logger-1" (by decide)).2.1 (by decide)
    ⟨⟨"Logger-1", "h", "10.0.0.5", 9998⟩, by simp, by decide⟩

/-- Claim C6: with an empty discovery result, resolving any device name
(the path every discovery-dependent command other than `list` and `listen`
takes) raises `SystemExit` with an absence-reporting message — never an
unhandled fault: `"No devices found. ..."` for the literal `"pick"`, and
`"Device not found: <name>. Run: <argv0> list"` otherwise. `SystemExit`
with a string message exits the process with non-zero status. -/
theorem resolve_empty_reports_absence (selections : List String) (argv0 name : String) :
    resolve [] selections argv0 name
      = Outcome.exitMsg (if name = "pick"
          then "No devices found. (mDNS blocked? component not advertising _esp32udplog._udp?)"
          else "Device not found: " ++ name ++ ". Run: " ++ argv0 ++ " list") := by
  by_cases hc : name = "pick" <;>
    simp [resolve, pick_device, hc, toString_string, String.append_assoc]

/-- Claim C9: the device-name argument `"pick"` is checked before any name
matching, so even when the discovered list contains a device literally
named `"pick"`, resolution goes straight to the interactive selection loop
over the user's input lines; the `"pick"`-named device can never be
resolved by name. -/
theorem pick_name_shadowed (devices : List Device) (selections : List String)
    (argv0 : String) (h : ∃ d ∈ devices, d.name = "pick") :
    resolve devices selections argv0 "pick" = pick_loop devices selections := by
  rcases h with ⟨d, hd, -⟩
  have hne : devices ≠ [] := List.ne_nil_of_mem hd
  simp [resolve, pick_device, List.isEmpty_eq_false.mpr hne]

/-- Witness for `pick_name_shadowed`: a list containing a device named
`"pick"`, where the interactive loop (fed the line `"2"`) selects the
other device. -/
theorem pick_name_shadowed_witness :
    (∃ d ∈ [(⟨"pick", "h1", "1.1.1.1", 1⟩ : Device), ⟨"other", "h2", "2.2.2.2", 2⟩],
        d.name = "pick")
    ∧ resolve [(⟨"pick", "h1", "1.1.1.1", 1⟩ : Device), ⟨"other", "h2", "2.2.2.2", 2⟩]
          ["2"] "cli" "pick"
        = pick_loop [(⟨"pick", "h1", "1.1.1.1", 1⟩ : Device), ⟨"other", "h2", "2.2.2.2", 2⟩]
          ["2"] :=
  ⟨⟨⟨"pick", "h1", "1.1.1.1", 1⟩, by simp, rfl⟩,
    pick_name_shadowed _ ["2"] "cli" ⟨⟨"pick", "h1", "1.1.1.1", 1⟩, by simp, rfl⟩⟩

theorem storeDevice_map_name (m : List Device) (d : Device) :
    (storeDevice m d).map Device.name
      = if m.any (fun x => x.name = d.name) then m.map Device.name
        else m.map Device.name ++ [d.name] := by
  unfold storeDevice
  split
  · rw [List.map_map]
    exact List.map_congr_left (by
      intro x _
      by_cases hx : x.name = d.name <;> simp [hx])
  · simp

theorem mem_storeDevice (m : List Device) (d x : Device) (hx : x ∈ storeDevice m d) :
    x ∈ m ∨ x = d := by
  unfold storeDevice at hx
  split at hx
  · rcases List.mem_map.mp hx with ⟨y, hy, hxy⟩
    by_cases h : y.name = d.name
    · right
      rw [← hxy]
      simp [h]
    · left
      rw [← hxy]
      simpa [h] using hy
  · rcases List.mem_append.mp hx with h | h
    · exact Or.inl h
    · exact Or.inr (by simpa using h)

theorem storeDevice_nodup (m : List Device) (d : Device)
    (h : (m.map Device.name).Nodup) : ((storeDevice m d).map Device.name).Nodup := by
  rw [storeDevice_map_name]
  split
  · exact h
  · next hany =>
    have hnot : d.name ∉ m.map Device.name := by
      intro hmem
      rcases List.mem_map.mp hmem with ⟨y, hy, hyn⟩
      exact hany (List.any_eq_true.mpr ⟨y, hy, by simp [hyn]⟩)
    rw [List.nodup_append]
    refine ⟨h, List.nodup_singleton _, ?_⟩
    intro a ha had
    rw [List.mem_singleton] at had
    exact hnot (had ▸ ha)

theorem mem_storeEvent (m : List Device) (ev : DiscoveryEvent) (x : Device)
    (hx : x ∈ storeEvent m ev) : x ∈ m ∨ info_to_device ev.2 ev.1 = some x := by
  unfold storeEvent at hx
  rcases hinfo : info_to_device ev.2 ev.1 with _ | d <;> rw [hinfo] at hx
  · exact Or.inl hx
  · rcases mem_storeDevice m d x hx with h | h
    · exact Or.inl h
    · exact Or.inr (by rw [h])

theorem storeEvent_nodup (m : List Device) (ev : DiscoveryEvent)
    (h : (m.map Device.name).Nodup) : ((storeEvent m ev).map Device.name).Nodup := by
  unfold storeEvent
  rcases info_to_device ev.2 ev.1 with _ | d
  · exact h
  · exact storeDevice_nodup m d h

theorem collect_inv (events : List DiscoveryEvent) :
    ∀ acc : List Device,
      ((acc.map Device.name).Nodup →
        ((events.foldl storeEvent acc).map Device.name).Nodup)
      ∧ ∀ x ∈ events.foldl storeEvent acc,
          x ∈ acc ∨ ∃ ev ∈ events, info_to_device ev.2 ev.1 = some x := by
  induction events with
  | nil =>
    intro acc
    exact ⟨fun h => h, fun x hx => Or.inl hx⟩
  | cons ev evs ih =>
    intro acc
    refine ⟨fun h => ?_, fun x hx => ?_⟩
    · simpa using (ih (storeEvent acc ev)).1 (storeEvent_nodup acc ev h)
    · simp only [List.foldl_cons] at hx
      rcases (ih (storeEvent acc ev)).2 x hx with hmem | ⟨ev', hev', hinfo⟩
      · rcases mem_storeEvent acc ev x hmem with h1 | h1
        · exact Or.inl h1
        · exact Or.inr ⟨ev, List.mem_cons_self ev evs, h1⟩
      · exact Or.inr ⟨ev', List.mem_cons_of_mem ev hev', hinfo⟩

theorem byLowerName_trans (a b c : Device) (hab : byLowerName a b = true)
    (hbc : byLowerName b c = true) : byLowerName a c = true := by
  simp only [byLowerName, decide_eq_true_eq] at *
  exact le_trans hab hbc

theorem byLowerName_total (a b : Device) : (byLowerName a b || byLowerName b a) = true := by
  simp only [byLowerName, Bool.or_eq_true, decide_eq_true_eq]
  exact le_total _ _

/-- Claim C7: `discover` returns a list that is (i) sorted by
case-insensitive name, (ii) deduplicated — at most one record per instance
name, and (iii) free of services lacking a resolvable IPv4 address: every
returned record comes from an event `_info_to_device` converted, and an
advertised service all of whose parsed addresses are IPv6 (contain a
colon) converts to nothing. -/
theorem discover_sorted_dedup_ipv4 (events : List DiscoveryEvent) :
    (discover events).Pairwise (fun a b => strLower a.name ≤ strLower b.name)
    ∧ ((discover events).map Device.name).Nodup
    ∧ (∀ d ∈ discover events, ∃ ev ∈ events, info_to_device ev.2 ev.1 = some d)
    ∧ ∀ (fqdn : String) (i : ServiceInfo),
        (∀ a ∈ i.parsed_addresses, a.contains ':') →
        info_to_device (some i) fqdn = none := by
  refine ⟨?_, ?_, ?_, ?_⟩
  · have hs := List.sorted_mergeSort byLowerName_trans byLowerName_total
      (collectDevices events)
    exact hs.imp (by
      intro a b hab
      simpa [byLowerName] using hab)
  · have hperm := List.mergeSort_perm (collectDevices events) byLowerName
    have hn := (collect_inv events []).1 (by simp)
    exact ((hperm.map Device.name).symm).nodup hn
  · intro d hd
    have hperm := List.mergeSort_perm (collectDevices events) byLowerName
    have hmem : d ∈ collectDevices events := hperm.mem_iff.mp hd
    rcases (collect_inv events []).2 d hmem with h | h
    · exact absurd h (List.not_mem_nil d)
    · exact h
  · intro fqdn i hall
    have hfind : i.parsed_addresses.find? (fun a => !(a.contains ':')) = none :=
      List.find?_eq_none.mpr (by
        intro a ha
        simp [hall a ha])
    simp [info_to_device, hfind]

end UdpLoggerCli
